import Mathlib

/-!
Verification of the boilerplate-go request-processing middleware:
the distributed rate-limiting subsystem (key strategy, evaluator, middleware
wrapper) and the JWT authentication gate, shallowly embedded from the Go
source (internal/app/boilerplate/server/middleware/ratelimit.go,
middleware/auth.go, internal/pkg/jwt/jwt.go).
-/

namespace Boilerplate

/-! ## Counter store

The Redis counter store, as consumed by the Lua script inside
`checkRateLimit`: a map from keys to a current count and a TTL in seconds.
The script executes as one atomic Redis `Eval`, so it is embedded as a single
state-transition function. Counts are Go/Redis int64 values, modelled as `Int`
(no overflow occurs in any property below). -/

/-- The counter store state: association list from key to (count, ttlSeconds).
Newest binding first; `storeGet` finds the first binding. -/
def Store := List (String × Int × Int)

instance : DecidableEq Store := by unfold Store; infer_instance

def Store.empty : Store := []

def storeGet (s : Store) (k : String) : Option (Int × Int) :=
  (s.find? (fun e => decide (e.1 = k))).map (·.2)

def storeSet (s : Store) (k : String) (count ttl : Int) : Store :=
  (k, count, ttl) :: s

/-- The Lua script of `checkRateLimit` (one atomic Redis operation):
if the key is absent, `SET key 1 EX window` and return `{1, window}`;
otherwise `INCR` the key, read its `TTL`, and return `{count, ttl}`.
The `limit` argument is bound by the script but never used, as in the source. -/
def evalRateLimitScript (s : Store) (key : String) (limit window : Int) :
    Store × Int × Int :=
  match storeGet s key with
  | none => (storeSet s key 1 window, 1, window)
  | some (c, ttl) => (storeSet s key (c + 1) ttl, c + 1, ttl)

/-! ## Rate limit evaluator (`checkRateLimit`) -/

/-- The evaluator's result (`allowed, current, remaining, resetTime`).
`resetTime` is a unix timestamp in seconds (`time.Now().Add(ttl)`). -/
structure RateLimitDecision where
  allowed : Bool
  currentCount : Int
  remaining : Int
  resetTime : Int
deriving DecidableEq, Repr

/-- Error cases of `checkRateLimit`: the `Eval` call failed, the result was
not a two-element array, or its elements were not int64. The environment
chooses which (if any) occurs; the pure script itself never fails. -/
inductive RateLimitError where
  | failedToExecuteScript
  | invalidScriptResult
  | failedToParseResult
deriving DecidableEq, Repr

/-- The success path of `checkRateLimit`: run the script, then compute
`remaining = limit - current` clamped at 0, `resetTime = now + ttl`, and
`allowed = current <= limit`. -/
def checkRateLimitOk (s : Store) (key : String) (limit window now : Int) :
    Store × RateLimitDecision :=
  let r := evalRateLimitScript s key limit window
  let current := r.2.1
  let ttl := r.2.2
  let remaining := if limit - current < 0 then 0 else limit - current
  (r.1,
   { allowed := decide (current ≤ limit)
     currentCount := current
     remaining := remaining
     resetTime := now + ttl })

/-- The function checkRateLimit: the environment `env` is `some e` when the store is
unreachable or returns a malformed result (the Go error paths), `none` when
the atomic script executes normally. -/
def checkRateLimit (env : Option RateLimitError) (s : Store) (key : String)
    (limit window now : Int) : Except RateLimitError (Store × RateLimitDecision) :=
  match env with
  | some e => .error e
  | none => .ok (checkRateLimitOk s key limit window now)

/-! ## Requests, context, claims -/

/-- Registered JWT claims (`jwt.RegisteredClaims`), timestamps as unix
seconds. -/
structure RegisteredClaims where
  issuer : String
  subject : String
  audience : List String
  expiresAt : Int
  notBefore : Int
  issuedAt : Int
deriving DecidableEq, Repr

/-- The type jwt.Claims: custom fields plus the registered claims. -/
structure Claims where
  userID : String
  email : String
  role : String
  registered : RegisteredClaims
deriving DecidableEq, Repr

/-- The context keys used by the middleware. The four `ContextKey` string
constants (`user_id`, `user_email`, `user_role`, `claims`) and the generated
`api.BearerAuthScopes` key are distinct Go types, hence distinct keys. -/
inductive ContextKey where
  | userID
  | userEmail
  | userRole
  | claimsKey
  | bearerAuthScopes
deriving DecidableEq, Repr

/-- Values stored in the request context. -/
inductive CtxValue where
  | str : String → CtxValue
  | claimsVal : Claims → CtxValue
  | scopes : List String → CtxValue
deriving DecidableEq, Repr

/-- An HTTP request, restricted to the attributes the middleware reads.
Header values are strings with `""` for an absent header (Go `Header.Get`). -/
structure Request where
  method : String
  path : String
  remoteAddr : String
  xForwardedFor : String
  xRealIP : String
  authHeader : String
  ctx : List (ContextKey × CtxValue)
deriving DecidableEq, Repr

/-- Go context.Value: the most recent binding for a key. -/
def ctxValue (req : Request) (k : ContextKey) : Option CtxValue :=
  (req.ctx.find? (fun e => decide (e.1 = k))).map (·.2)

/-- Go context.WithValue: derive a context with one more binding. -/
def Request.withValue (req : Request) (k : ContextKey) (v : CtxValue) : Request :=
  { req with ctx := (k, v) :: req.ctx }

/-! ## Rate limit key strategy -/

/-- The function getClientIP: `X-Forwarded-For` if non-empty, else `X-Real-IP` if
non-empty, else `RemoteAddr`. -/
def getClientIP (req : Request) : String :=
  if req.xForwardedFor ≠ "" then req.xForwardedFor
  else if req.xRealIP ≠ "" then req.xRealIP
  else req.remoteAddr

/-- Go RateLimitType is a string type; its known values are `"global"`,
`"ip"` and `"endpoint"`. `generateRateLimitKey` switches on it and fails with
a wrapped `ErrUnknownRateLimitType` on any other value. -/
def generateRateLimitKey (limitType : String) (req : Request) :
    Except String String :=
  if limitType = "global" then .ok "rate_limit:global"
  else if limitType = "ip" then .ok ("rate_limit:ip:" ++ getClientIP req)
  else if limitType = "endpoint" then
    .ok ("rate_limit:endpoint:" ++ getClientIP req ++ ":" ++ req.method ++ ":" ++ req.path)
  else .error ("unknown rate limit type: " ++ limitType)

/-! ## Middleware outcomes -/

/-- The observable outcome of one middleware stage on one request:
either the downstream handler is invoked (with the possibly augmented
request, and with the listed response headers already set), or the chain is
terminated with a status, body, and headers. -/
inductive MWOutcome where
  | passthrough : Request → List (String × String) → MWOutcome
  | rejected : Int → String → List (String × String) → MWOutcome
deriving DecidableEq, Repr

/-- The response headers a stage has set, in either outcome. -/
def MWOutcome.headers : MWOutcome → List (String × String)
  | .passthrough _ hs => hs
  | .rejected _ _ hs => hs

/-- Whether the downstream handler is invoked. -/
def MWOutcome.invokesNext : MWOutcome → Bool
  | .passthrough _ _ => true
  | .rejected _ _ _ => false

/-! ## Rate limit middleware wrapper (`rateLimit`) -/

/-- The `rateLimit` middleware body for one request: derive the key
(fail-open on error), evaluate the limit (fail-open on error), set the three
`X-Ratelimit-*` headers, and on denial set `Retry-After` and terminate with
429 `"Rate limit exceeded"`; otherwise invoke the downstream handler.
Returns the store after the stage together with the outcome. -/
def rateLimit (limitType : String) (requests window : Int)
    (env : Option RateLimitError) (now : Int) (store : Store) (req : Request) :
    Store × MWOutcome :=
  match generateRateLimitKey limitType req with
  | .error _ => (store, .passthrough req [])
  | .ok key =>
    match checkRateLimit env store key requests window now with
    | .error _ => (store, .passthrough req [])
    | .ok (store', d) =>
      let hdrs := [("X-Ratelimit-Limit", toString requests),
                   ("X-Ratelimit-Remaining", toString d.remaining),
                   ("X-Ratelimit-Reset", toString d.resetTime)]
      if d.allowed then (store', .passthrough req hdrs)
      else
        (store', .rejected 429 "Rate limit exceeded"
          (hdrs ++ [("Retry-After", toString window)]))

/-! ## Sequential traces of the evaluator

Each `checkRateLimit` call is one atomic Redis operation, so any concurrent
execution against a shared key is serialized by the store into some sequential
order of these atomic steps; traces below therefore cover every interleaving. -/

/-- The store after `n` successful `checkRateLimit` calls for `key`, starting
from the empty store. -/
def storeAfter (key : String) (limit window now : Int) : Nat → Store
  | 0 => Store.empty
  | n + 1 => (checkRateLimitOk (storeAfter key limit window now n) key limit window now).1

/-- The decision returned by call number `n + 1` (i.e. the call made after
`n` previous calls) in the sequential trace. -/
def nthCall (key : String) (limit window now : Int) (n : Nat) : RateLimitDecision :=
  (checkRateLimitOk (storeAfter key limit window now n) key limit window now).2

/-- How many of the first `m` calls in the trace were allowed. -/
def allowedCount (key : String) (limit window now : Int) : Nat → Nat
  | 0 => 0
  | m + 1 =>
    allowedCount key limit window now m +
      (if (nthCall key limit window now m).allowed then 1 else 0)

/-! ## JWT token management (`internal/pkg/jwt/jwt.go`)

The claim construction, expiry policy, and validation pipeline are embedded
from the source. The serialization/HMAC layer lives in the external
golang-jwt library; it is modelled symbolically: a signed token is the claim
set together with a signing method and a signature string, and the HMAC is an
executable stand-in keyed on secret and payload. -/

/-- JWT configuration (pointer fields are non-nil after `SetDefault`). TTLs
in seconds. -/
structure JWTConfig where
  issuer : String
  audience : String
  secretKey : String
  accessTokenTTL : Int
  refreshTokenTTL : Int
deriving DecidableEq, Repr

/-- Signing methods as far as `ValidateToken`'s keyfunc distinguishes them:
`hs256` is the HMAC method used at issuance; anything else is rejected with
`ErrUnexpectedSigningMethod`. -/
inductive SigningMethod where
  | hs256
  | nonHMAC
deriving DecidableEq, Repr

/-- Modelled from the spec: the claim payload the HMAC signature covers
(the golang-jwt serialization of the claims is not in src). -/
def claimsPayload (c : Claims) : String :=
  c.userID ++ "|" ++ c.email ++ "|" ++ c.role ++ "|" ++ c.registered.issuer ++
  "|" ++ c.registered.subject ++ "|" ++ String.intercalate "," c.registered.audience ++
  "|" ++ toString c.registered.expiresAt ++ "|" ++ toString c.registered.notBefore ++
  "|" ++ toString c.registered.issuedAt

/-- Modelled from the spec: symmetric HMAC signing (the HMAC-SHA256
implementation is in the external library, not in src). The model is keyed on
the exact secret and payload, which captures that verification succeeds
exactly when recomputation with the same key over the same payload matches. -/
def hmacSign (secret payload : String) : String :=
  "hmac-sha256[" ++ secret ++ "](" ++ payload ++ ")"

/-- A signed token (`token.SignedString` output), modelled structurally. -/
structure SignedToken where
  claims : Claims
  method : SigningMethod
  signature : String
deriving DecidableEq, Repr

/-- JWT errors surfaced by `ValidateToken`. -/
inductive JWTError where
  | invalidToken
  | expiredToken
  | invalidClaims
deriving DecidableEq, Repr

/-- The function generateToken: build claims with the configured issuer/audience,
`Subject = userID`, `ExpiresAt = now + ttl`, `NotBefore = IssuedAt = now`,
and sign with HS256 under the configured secret. -/
def generateToken (cfg : JWTConfig) (userID email role : String)
    (ttl now : Int) : SignedToken :=
  let claims : Claims :=
    { userID := userID
      email := email
      role := role
      registered :=
        { issuer := cfg.issuer
          subject := userID
          audience := [cfg.audience]
          expiresAt := now + ttl
          notBefore := now
          issuedAt := now } }
  { claims := claims
    method := .hs256
    signature := hmacSign cfg.secretKey (claimsPayload claims) }

/-- The function GenerateAccessToken: `generateToken` with the access-token TTL. -/
def GenerateAccessToken (cfg : JWTConfig) (userID email role : String)
    (now : Int) : SignedToken :=
  generateToken cfg userID email role cfg.accessTokenTTL now

/-- The function ValidateToken at validation time `now`: reject non-HMAC methods
(keyfunc), verify the signature under the configured secret, report
`ErrExpiredToken` when `expiresAt` is in the past, reject not-yet-valid
tokens, and otherwise return the parsed claims. -/
def ValidateToken (cfg : JWTConfig) (now : Int) (tok : SignedToken) :
    Except JWTError Claims :=
  if tok.method ≠ .hs256 then .error .invalidToken
  else if tok.signature ≠ hmacSign cfg.secretKey (claimsPayload tok.claims) then
    .error .invalidToken
  else if now > tok.claims.registered.expiresAt then .error .expiredToken
  else if now < tok.claims.registered.notBefore then .error .invalidToken
  else .ok tok.claims

/-! ## String helpers for the auth gate

`strings.HasPrefix` and `strings.TrimPrefix`, embedded on the character
lists underlying `String`. -/

/-- Go strings.HasPrefix, as `strHasPre pre s`. -/
def strHasPre (pre s : String) : Bool :=
  decide (s.data.take pre.data.length = pre.data)

/-- Go strings.TrimPrefix in the case the caller has checked the test above:
drop the matched leading characters. -/
def strDropPre (pre s : String) : String :=
  ⟨s.data.drop pre.data.length⟩

/-! ## JWT authentication gate (`JWTAuth`) -/

/-- Whether the matched route requires bearer auth: the context value at
`api.BearerAuthScopes` type-asserts to `[]string`. -/
def requiresAuth (req : Request) : Bool :=
  match ctxValue req .bearerAuthScopes with
  | some (.scopes _) => true
  | _ => false

/-- The context injection of `JWTAuth`'s success path: `user_id`,
`user_email`, `user_role`, and the full claims object. -/
def authContext (req : Request) (c : Claims) : Request :=
  (((req.withValue .userID (.str c.userID)).withValue
      .userEmail (.str c.email)).withValue
      .userRole (.str c.role)).withValue .claimsKey (.claimsVal c)

/-- The `JWTAuth` middleware body for one request, parameterized (as the Go
function is by its `jwt` argument) by the token validator: skip routes
without a bearer-auth requirement; otherwise require an
`Authorization: Bearer <token>` header with a non-empty token that validates,
rejecting with 401 `"Unauthorized"` on any failure. -/
def JWTAuth (validate : String → Except JWTError Claims) (req : Request) :
    MWOutcome :=
  if requiresAuth req = false then .passthrough req []
  else if req.authHeader = "" then .rejected 401 "Unauthorized" []
  else if strHasPre "Bearer " req.authHeader = false then
    .rejected 401 "Unauthorized" []
  else
    let tokenString := strDropPre "Bearer " req.authHeader
    if tokenString = "" then .rejected 401 "Unauthorized" []
    else
      match validate tokenString with
      | .error _ => .rejected 401 "Unauthorized" []
      | .ok claims => .passthrough (authContext req claims) []

/-! ## Fixtures used by witness theorems -/

/-- A plain request with no special headers and no auth requirement. -/
def reqPlain : Request :=
  { method := "GET", path := "/health", remoteAddr := "10.0.0.9:4242"
    xForwardedFor := "", xRealIP := "", authHeader := "", ctx := [] }

/-- A request on a protected route carrying a bearer token the reject-all
validator refuses. -/
def reqAuthDenied : Request :=
  { method := "GET", path := "/users", remoteAddr := "10.0.0.9:4242"
    xForwardedFor := "", xRealIP := "", authHeader := "Bearer tok"
    ctx := [(.bearerAuthScopes, .scopes [])] }

/-- A validator that rejects every token. -/
def validateReject : String → Except JWTError Claims :=
  fun _ => .error .invalidToken

/-- Claims for user `user123`. -/
def claimsUser123 : Claims :=
  { userID := "user123", email := "u@example.com", role := "admin"
    registered :=
      { issuer := "boilerplate", subject := "user123"
        audience := ["boilerplate_audience"], expiresAt := 3600
        notBefore := 0, issuedAt := 0 } }

/-- A validator that accepts exactly the token `tok123` as `user123`. -/
def validateUser123 : String → Except JWTError Claims :=
  fun t => if t = "tok123" then .ok claimsUser123 else .error .invalidToken

/-- A request on a protected route carrying `tok123`. -/
def reqAuthOK : Request :=
  { method := "GET", path := "/users", remoteAddr := "10.0.0.9:4242"
    xForwardedFor := "", xRealIP := "", authHeader := "Bearer tok123"
    ctx := [(.bearerAuthScopes, .scopes [])] }

/-- First request of the endpoint-key collision pair: client IP `a`,
method `b`, path `c:d`. -/
def reqEndpointA : Request :=
  { method := "b", path := "c:d", remoteAddr := ""
    xForwardedFor := "a", xRealIP := "", authHeader := "", ctx := [] }

/-- Second request of the endpoint-key collision pair: client IP `a:b`,
method `c`, path `d`. -/
def reqEndpointB : Request :=
  { method := "c", path := "d", remoteAddr := ""
    xForwardedFor := "a:b", xRealIP := "", authHeader := "", ctx := [] }

/-- A default JWT configuration (the `SetDefault` values, TTLs in seconds). -/
def cfgDefault : JWTConfig :=
  { issuer := "boilerplate", audience := "boilerplate_audience"
    secretKey := "boilerplate_secret_key", accessTokenTTL := 3600
    refreshTokenTTL := 86400 }

/-! ## Store and trace lemmas -/

theorem storeGet_set_self (s : Store) (k : String) (c ttl : Int) :
    storeGet (storeSet s k c ttl) k = some (c, ttl) := by
  simp [storeGet, storeSet]

theorem storeGet_set_other (s : Store) (k k' : String) (c ttl : Int)
    (h : k ≠ k') : storeGet (storeSet s k c ttl) k' = storeGet s k' := by
  simp [storeGet, storeSet, List.find?_cons, h]

theorem storeGet_empty (k : String) : storeGet Store.empty k = none := rfl

/-- After `n` calls, the counter for `key` holds `n` with TTL `window`
(absent for `n = 0`). -/
theorem storeAfter_get (key : String) (limit window now : Int) (n : Nat) :
    storeGet (storeAfter key limit window now n) key =
      if n = 0 then none else some ((n : Int), window) := by
  induction n with
  | zero => rfl
  | succ n ih =>
    rw [storeAfter, checkRateLimitOk, evalRateLimitScript]
    by_cases h : n = 0
    · subst h
      simp only [ih]
      simp [storeGet_set_self]
    · rw [ih, if_neg h]
      simp only []
      rw [storeGet_set_self]
      simp [Nat.cast_succ]

/-- Closed form for the decision of call number `n + 1` in the sequential
trace: the count is `n + 1`, the request is allowed exactly when
`n + 1 ≤ limit`, the remaining budget is `limit - (n + 1)` clamped at `0`,
and the reset time is `now + window`. -/
theorem nthCall_eq (key : String) (limit window now : Int) (n : Nat) :
    nthCall key limit window now n =
      { allowed := decide ((n : Int) + 1 ≤ limit)
        currentCount := (n : Int) + 1
        remaining := if limit - ((n : Int) + 1) < 0 then 0 else limit - ((n : Int) + 1)
        resetTime := now + window } := by
  rw [nthCall, checkRateLimitOk, evalRateLimitScript, storeAfter_get]
  by_cases h : n = 0
  · subst h; simp
  · rw [if_neg h]

/-- C1: for a positive limit `K` and window `w`, sequential `checkRateLimit`
calls against a fresh key return, on call `n + 1`: `currentCount = n + 1`,
`allowed` exactly when `n + 1 ≤ K` (so calls `1..K` are allowed and call
`K + 1` is denied), `remaining = K - (n + 1)` clamped at `0` (decreasing from
`K - 1` to `0`, then `0` when denied), with the first call creating the
counter at `1` with TTL `w`. -/
theorem checkRateLimit_sequential_boundary (key : String) (K w now : Int)
    (hK : 0 < K) (hw : 0 < w) (n : Nat) :
    (nthCall key K w now n).currentCount = (n : Int) + 1 ∧
    ((nthCall key K w now n).allowed = true ↔ (n : Int) + 1 ≤ K) ∧
    (nthCall key K w now n).remaining = max 0 (K - ((n : Int) + 1)) ∧
    (nthCall key K w now n).resetTime = now + w ∧
    storeAfter key K w now 1 = storeSet Store.empty key 1 w := by
  rw [nthCall_eq]
  refine ⟨rfl, by simp, ?_, rfl, rfl⟩
  simp only [Int.max_def]
  split_ifs <;> omega

/-- Witness for C1 at `K = 3`, `w = 60`, call number 4. -/
theorem checkRateLimit_sequential_boundary_witness :
    (0 : Int) < 3 ∧ (0 : Int) < 60 ∧
    ((nthCall "k" 3 60 100 3).currentCount = ((3 : Nat) : Int) + 1 ∧
     ((nthCall "k" 3 60 100 3).allowed = true ↔ ((3 : Nat) : Int) + 1 ≤ 3) ∧
     (nthCall "k" 3 60 100 3).remaining = max 0 (3 - (((3 : Nat) : Int) + 1)) ∧
     (nthCall "k" 3 60 100 3).resetTime = 100 + 60 ∧
     storeAfter "k" 3 60 100 1 = storeSet Store.empty "k" 1 60) :=
  ⟨by decide, by decide,
   checkRateLimit_sequential_boundary "k" 3 60 100 (by decide) (by decide) 3⟩

/-- C9: each `checkRateLimit` is one atomic counter-store operation (the Lua
script runs as a single Redis `Eval`), so a concurrent execution of requests
sharing a key is serialized by the store into a sequential trace of these
atomic steps; over every such trace with `maxRequests = N` on a fresh key,
each of the first `N` operations is allowed, operation `N + 1` is denied, and
no trace yields more than `N` successes (`allowedCount m = min m N`). -/
theorem checkRateLimit_atomic (key : String) (w now : Int) (N : Nat)
    (hN : 0 < N) :
    (∀ i : Nat, i < N → (nthCall key (N : Int) w now i).allowed = true) ∧
    (nthCall key (N : Int) w now N).allowed = false ∧
    (∀ m : Nat, allowedCount key (N : Int) w now m = min m N) := by
  have hall : ∀ i : Nat, (nthCall key (N : Int) w now i).allowed =
      decide ((i : Int) + 1 ≤ (N : Int)) := fun i => by rw [nthCall_eq]
  refine ⟨?_, ?_, ?_⟩
  · intro i hi
    rw [hall]
    simp only [decide_eq_true_eq]
    omega
  · rw [hall]
    simp only [decide_eq_false_iff_not]
    omega
  · intro m
    induction m with
    | zero => simp [allowedCount]
    | succ m ih =>
      rw [allowedCount, ih, hall]
      by_cases h : m < N
      · have hd : decide ((m : Int) + 1 ≤ (N : Int)) = true := by
          simp only [decide_eq_true_eq]; omega
        rw [hd]
        simp only [Nat.min_def, if_true]
        split_ifs <;> omega
      · have hd : decide ((m : Int) + 1 ≤ (N : Int)) = false := by
          simp only [decide_eq_false_iff_not]; omega
        rw [hd]
        simp only [Nat.min_def, Bool.false_eq_true, if_false]
        split_ifs <;> omega

/-- Witness for C9 at `N = 2`. -/
theorem checkRateLimit_atomic_witness :
    0 < 2 ∧
    (nthCall "k" ((2 : Nat) : Int) 60 100 0).allowed = true ∧
    (nthCall "k" ((2 : Nat) : Int) 60 100 2).allowed = false ∧
    allowedCount "k" ((2 : Nat) : Int) 60 100 3 = min 3 2 :=
  ⟨by decide,
   (checkRateLimit_atomic "k" 60 100 2 (by decide)).1 0 (by decide),
   (checkRateLimit_atomic "k" 60 100 2 (by decide)).2.1,
   (checkRateLimit_atomic "k" 60 100 2 (by decide)).2.2 3⟩

/-- C5: the derived keys are exactly `rate_limit:global`,
`"rate_limit:ip:" ++ ip` and
`"rate_limit:endpoint:" ++ ip ++ ":" ++ method ++ ":" ++ path`, any other
scope value yields an unknown-scope error and no key, and the client IP is
`X-Forwarded-For` if non-empty, else `X-Real-IP` if non-empty, else the
transport-level remote address. -/
theorem generateRateLimitKey_spec (req : Request) (lt : String) :
    generateRateLimitKey "global" req = .ok "rate_limit:global" ∧
    generateRateLimitKey "ip" req = .ok ("rate_limit:ip:" ++ getClientIP req) ∧
    generateRateLimitKey "endpoint" req =
      .ok ("rate_limit:endpoint:" ++ getClientIP req ++ ":" ++ req.method ++
        ":" ++ req.path) ∧
    (lt ≠ "global" → lt ≠ "ip" → lt ≠ "endpoint" →
      generateRateLimitKey lt req = .error ("unknown rate limit type: " ++ lt)) ∧
    getClientIP req =
      (if req.xForwardedFor ≠ "" then req.xForwardedFor
       else if req.xRealIP ≠ "" then req.xRealIP
       else req.remoteAddr) := by
  refine ⟨rfl, rfl, rfl, ?_, rfl⟩
  intro h1 h2 h3
  simp [generateRateLimitKey, h1, h2, h3]

/-- Witness for C5 at the unknown scope `zzz`. -/
theorem generateRateLimitKey_spec_witness :
    generateRateLimitKey "zzz" reqPlain =
      .error ("unknown rate limit type: " ++ "zzz") ∧
    generateRateLimitKey "global" reqPlain = .ok "rate_limit:global" :=
  ⟨(generateRateLimitKey_spec reqPlain "zzz").2.2.2.1
      (by decide) (by decide) (by decide),
   (generateRateLimitKey_spec reqPlain "zzz").1⟩

/-- C3: when key generation fails (unknown scope) or the rate-limit check
fails (store unreachable or malformed result), the middleware invokes the
downstream handler with the request unmodified, sets no headers, writes no
error status, and leaves the store untouched. -/
theorem rateLimit_failOpen (limitType : String) (requests window : Int)
    (env : Option RateLimitError) (now : Int) (store : Store) (req : Request)
    (h : (∃ e, generateRateLimitKey limitType req = .error e) ∨ env ≠ none) :
    rateLimit limitType requests window env now store req =
      (store, .passthrough req []) := by
  unfold rateLimit
  rcases h with ⟨e, he⟩ | henv
  · rw [he]
  · rcases hk : generateRateLimitKey limitType req with e | key
    · rfl
    · cases env with
      | none => exact absurd rfl henv
      | some e => rfl

/-- Witness for C3: an unknown scope passes the request through. -/
theorem rateLimit_failOpen_witness :
    rateLimit "bogus" 5 60 none 0 Store.empty reqPlain =
      (Store.empty, .passthrough reqPlain []) :=
  rateLimit_failOpen "bogus" 5 60 none 0 Store.empty reqPlain
    (Or.inl ⟨"unknown rate limit type: " ++ "bogus", rfl⟩)

/-- C6: on every successfully evaluated request — allowed or denied — the
middleware sets all three `X-Ratelimit-*` headers, with the limit, the
decision's remaining count, and the reset unix time. -/
theorem rateLimit_setsHeaders (limitType : String) (requests window now : Int)
    (store : Store) (req : Request) (key : String)
    (hk : generateRateLimitKey limitType req = Except.ok key) :
    ("X-Ratelimit-Limit", toString requests) ∈
      (rateLimit limitType requests window none now store req).2.headers ∧
    ("X-Ratelimit-Remaining",
        toString (checkRateLimitOk store key requests window now).2.remaining) ∈
      (rateLimit limitType requests window none now store req).2.headers ∧
    ("X-Ratelimit-Reset",
        toString (checkRateLimitOk store key requests window now).2.resetTime) ∈
      (rateLimit limitType requests window none now store req).2.headers := by
  unfold rateLimit
  rw [hk]
  simp only [checkRateLimit]
  rcases hc : checkRateLimitOk store key requests window now with ⟨s', d⟩
  by_cases hall : d.allowed
  · simp [hall, MWOutcome.headers]
  · simp [hall, MWOutcome.headers]

/-- Witness for C6 on the global scope against a fresh store. -/
theorem rateLimit_setsHeaders_witness :
    ("X-Ratelimit-Limit", "3") ∈
      (rateLimit "global" 3 60 none 100 Store.empty reqPlain).2.headers ∧
    ("X-Ratelimit-Remaining", "2") ∈
      (rateLimit "global" 3 60 none 100 Store.empty reqPlain).2.headers ∧
    ("X-Ratelimit-Reset", "160") ∈
      (rateLimit "global" 3 60 none 100 Store.empty reqPlain).2.headers :=
  rateLimit_setsHeaders "global" 3 60 100 Store.empty reqPlain
    "rate_limit:global" rfl

/-- C7: when the decision denies the request, the middleware additionally
sets `Retry-After` to the window in whole seconds and terminates with status
429 and body `"Rate limit exceeded"`, without invoking the downstream
handler. -/
theorem rateLimit_deny (limitType : String) (requests window now : Int)
    (store : Store) (req : Request) (key : String)
    (hk : generateRateLimitKey limitType req = Except.ok key)
    (hd : (checkRateLimitOk store key requests window now).2.allowed = false) :
    rateLimit limitType requests window none now store req =
      ((checkRateLimitOk store key requests window now).1,
       .rejected 429 "Rate limit exceeded"
         [("X-Ratelimit-Limit", toString requests),
          ("X-Ratelimit-Remaining",
            toString (checkRateLimitOk store key requests window now).2.remaining),
          ("X-Ratelimit-Reset",
            toString (checkRateLimitOk store key requests window now).2.resetTime),
          ("Retry-After", toString window)]) := by
  unfold rateLimit
  rw [hk]
  simp only [checkRateLimit]
  rcases hc : checkRateLimitOk store key requests window now with ⟨s', d⟩
  rw [hc] at hd
  simp only [] at hd
  simp [hd]

/-- The store fixture for the denial witness: the global counter already
holds 5. -/
def storeFull : Store := [("rate_limit:global", 5, 60)]

/-- Witness for C7: sixth request against limit 3 is denied with 429 and
`Retry-After: 60`. -/
theorem rateLimit_deny_witness :
    rateLimit "global" 3 60 none 100 storeFull reqPlain =
      ((checkRateLimitOk storeFull "rate_limit:global" 3 60 100).1,
       .rejected 429 "Rate limit exceeded"
         [("X-Ratelimit-Limit", "3"), ("X-Ratelimit-Remaining", "0"),
          ("X-Ratelimit-Reset", "160"), ("Retry-After", "60")]) :=
  rateLimit_deny "global" 3 60 100 storeFull reqPlain "rate_limit:global"
    rfl rfl

/-! ## String append cancellation (for key isolation) -/

theorem strAppend_cancel_left {p a b : String} (h : p ++ a = p ++ b) :
    a = b := by
  apply String.ext
  have hd := congrArg String.data h
  rw [String.data_append, String.data_append] at hd
  exact List.append_cancel_left hd

/-- C8 counterexample: the two fixture requests differ in client IP
(`a` vs `a:b`), method (`b` vs `c`) and path (`c:d` vs `d`), yet derive the
same per-endpoint key, because the components are joined with `:` and may
themselves contain `:`. -/
theorem endpointKey_collision :
    getClientIP reqEndpointA ≠ getClientIP reqEndpointB ∧
    reqEndpointA.method ≠ reqEndpointB.method ∧
    reqEndpointA.path ≠ reqEndpointB.path ∧
    generateRateLimitKey "endpoint" reqEndpointA =
      .ok "rate_limit:endpoint:a:b:c:d" ∧
    generateRateLimitKey "endpoint" reqEndpointB =
      .ok "rate_limit:endpoint:a:b:c:d" :=
  ⟨by decide, by decide, by decide, rfl, rfl⟩

/-- C8 amended: buckets are isolated per key — distinct client IPs derive
distinct `PerClientIP` keys; two requests that differ in exactly one of
client IP, method, or path (the other two components equal) derive distinct
`PerEndpoint` keys (when several `:`-joined components vary at once the keys
can collide, as shown above); and the atomic counter operation
for one key never touches any other key's counter. -/
theorem rateLimitKey_isolation (r1 r2 : Request) :
    (getClientIP r1 ≠ getClientIP r2 →
      generateRateLimitKey "ip" r1 ≠ generateRateLimitKey "ip" r2) ∧
    (getClientIP r1 ≠ getClientIP r2 → r1.method = r2.method →
      r1.path = r2.path →
      generateRateLimitKey "endpoint" r1 ≠ generateRateLimitKey "endpoint" r2) ∧
    (getClientIP r1 = getClientIP r2 → r1.method ≠ r2.method →
      r1.path = r2.path →
      generateRateLimitKey "endpoint" r1 ≠ generateRateLimitKey "endpoint" r2) ∧
    (getClientIP r1 = getClientIP r2 → r1.method = r2.method →
      r1.path ≠ r2.path →
      generateRateLimitKey "endpoint" r1 ≠ generateRateLimitKey "endpoint" r2) ∧
    (∀ (s : Store) (k k' : String) (lim w : Int), k ≠ k' →
      storeGet (evalRateLimitScript s k lim w).1 k' = storeGet s k') := by
  have e1 : ∀ r : Request, generateRateLimitKey "ip" r =
      .ok ("rate_limit:ip:" ++ getClientIP r) := fun _ => rfl
  have e2 : ∀ r : Request, generateRateLimitKey "endpoint" r =
      .ok ("rate_limit:endpoint:" ++ getClientIP r ++ ":" ++ r.method ++
        ":" ++ r.path) := fun _ => rfl
  refine ⟨?_, ?_, ?_, ?_, ?_⟩
  · intro hip h
    rw [e1, e1] at h
    injection h with h
    exact hip (strAppend_cancel_left h)
  · intro hip hm hp h
    rw [e2, e2] at h
    injection h with h
    apply hip
    apply String.ext
    have hd := congrArg String.data h
    simp only [String.data_append, List.append_assoc] at hd
    rw [hm, hp] at hd
    exact List.append_cancel_right (List.append_cancel_left hd)
  · intro hip hm hp h
    rw [e2, e2] at h
    injection h with h
    apply hm
    apply String.ext
    have hd := congrArg String.data h
    simp only [String.data_append, List.append_assoc] at hd
    rw [hip, hp] at hd
    exact List.append_cancel_right
      (List.append_cancel_left (List.append_cancel_left
        (List.append_cancel_left hd)))
  · intro hip hm hp h
    rw [e2, e2] at h
    injection h with h
    apply hp
    apply String.ext
    have hd := congrArg String.data h
    simp only [String.data_append, List.append_assoc] at hd
    rw [hip, hm] at hd
    exact List.append_cancel_left (List.append_cancel_left
      (List.append_cancel_left (List.append_cancel_left
        (List.append_cancel_left hd))))
  · intro s k k' lim w hkk
    rw [evalRateLimitScript]
    cases storeGet s k with
    | none => exact storeGet_set_other s k k' 1 w hkk
    | some e => exact storeGet_set_other s k k' (e.1 + 1) e.2 hkk

/-- Witness for the amended C8: the collision pair's distinct IPs still give
distinct `PerClientIP` keys, and counting under key `a` leaves key `b`
untouched. -/
theorem rateLimitKey_isolation_witness :
    generateRateLimitKey "ip" reqEndpointA ≠
      generateRateLimitKey "ip" reqEndpointB ∧
    storeGet (evalRateLimitScript Store.empty "a" 3 60).1 "b" =
      storeGet Store.empty "b" :=
  ⟨(rateLimitKey_isolation reqEndpointA reqEndpointB).1 (by decide),
   (rateLimitKey_isolation reqEndpointA reqEndpointB).2.2.2.2
     Store.empty "a" "b" 3 60 (by decide)⟩

/-! ## Bearer-header lemmas -/

theorem strHasPre_iff (pre s : String) :
    strHasPre pre s = true ↔ ∃ t, s = pre ++ t := by
  constructor
  · intro h
    refine ⟨⟨s.data.drop pre.data.length⟩, ?_⟩
    have h' : s.data.take pre.data.length = pre.data := by
      simpa [strHasPre] using h
    apply String.ext
    rw [String.data_append]
    conv_lhs => rw [← List.take_append_drop pre.data.length s.data]
    rw [h']
  · rintro ⟨t, rfl⟩
    simp [strHasPre, String.data_append, List.take_left]

theorem strDropPre_append (pre t : String) :
    strDropPre pre (pre ++ t) = t := by
  apply String.ext
  rw [strDropPre, String.data_append]
  exact List.drop_left pre.data t.data

theorem strAppend_ne_empty_of_ne {pre t : String} (hp : pre ≠ "") :
    pre ++ t ≠ "" := by
  intro h
  apply hp
  have hd := congrArg String.data h
  rw [String.data_append] at hd
  apply String.ext
  rcases List.append_eq_nil.mp hd with ⟨h1, _⟩
  exact h1

/-- C2: the auth gate invokes the downstream handler unchanged when the
route requires no bearer auth; on a protected route it invokes the
downstream handler exactly when the `Authorization` header is
`Bearer <token>` with a non-empty token accepted by the validator, and in
every failing case it writes 401 `"Unauthorized"` and does not invoke the
downstream handler. -/
theorem JWTAuth_gate (validate : String → Except JWTError Claims)
    (req : Request) :
    (requiresAuth req = false → JWTAuth validate req = .passthrough req []) ∧
    (requiresAuth req = true →
      ((∃ t c, req.authHeader = "Bearer " ++ t ∧ t ≠ "" ∧
          validate t = Except.ok c) →
        ∃ c, JWTAuth validate req = .passthrough (authContext req c) []) ∧
      ((¬ ∃ t c, req.authHeader = "Bearer " ++ t ∧ t ≠ "" ∧
          validate t = Except.ok c) →
        JWTAuth validate req = .rejected 401 "Unauthorized" [])) := by
  constructor
  · intro hreq
    rw [JWTAuth, if_pos hreq]
  · intro hreq
    constructor
    · rintro ⟨t, c, hA, ht, hv⟩
      refine ⟨c, ?_⟩
      rw [JWTAuth, if_neg (by simp [hreq]),
        if_neg (by rw [hA]; exact strAppend_ne_empty_of_ne (by decide)),
        if_neg (by rw [hA, (strHasPre_iff _ _).mpr ⟨t, rfl⟩]; simp)]
      simp only [hA, strDropPre_append]
      rw [if_neg ht, hv]
    · intro hno
      rw [JWTAuth, if_neg (by simp [hreq])]
      by_cases hA : req.authHeader = ""
      · rw [if_pos hA]
      · rw [if_neg hA]
        by_cases hP : strHasPre "Bearer " req.authHeader = true
        · rcases (strHasPre_iff _ _).mp hP with ⟨t, hAt⟩
          rw [if_neg (by rw [hP]; simp)]
          simp only [hAt, strDropPre_append]
          by_cases ht : t = ""
          · rw [if_pos ht]
          · rw [if_neg ht]
            rcases hv : validate t with e | c
            · rfl
            · exact absurd ⟨t, c, hAt, ht, hv⟩ hno
        · rw [if_pos (by simpa using hP)]

/-- Witness for C2: a protected route whose token the validator rejects is
answered with 401 and the handler is not invoked. -/
theorem JWTAuth_gate_witness :
    JWTAuth validateReject reqAuthDenied = .rejected 401 "Unauthorized" [] :=
  ((JWTAuth_gate validateReject reqAuthDenied).2 rfl).2
    (by rintro ⟨t, c, _, _, hv⟩; exact Except.noConfusion hv)

/-- C4: on a protected route with a valid bearer token, the auth gate passes
the request downstream with a context binding `user_id` to the claims'
`UserID`, `user_email` to `Email`, `user_role` to `Role`, and `claims` to
the full claims object. -/
theorem JWTAuth_inject (validate : String → Except JWTError Claims)
    (req : Request) (t : String) (c : Claims)
    (hreq : requiresAuth req = true)
    (hA : req.authHeader = "Bearer " ++ t)
    (ht : t ≠ "")
    (hv : validate t = Except.ok c) :
    JWTAuth validate req = .passthrough (authContext req c) [] ∧
    ctxValue (authContext req c) .userID = some (.str c.userID) ∧
    ctxValue (authContext req c) .userEmail = some (.str c.email) ∧
    ctxValue (authContext req c) .userRole = some (.str c.role) ∧
    ctxValue (authContext req c) .claimsKey = some (.claimsVal c) := by
  refine ⟨?_, ?_, ?_, ?_, ?_⟩
  · rw [JWTAuth, if_neg (by simp [hreq]),
      if_neg (by rw [hA]; exact strAppend_ne_empty_of_ne (by decide)),
      if_neg (by rw [hA, (strHasPre_iff _ _).mpr ⟨t, rfl⟩]; simp)]
    simp only [hA, strDropPre_append]
    rw [if_neg ht, hv]
  all_goals simp [authContext, ctxValue, Request.withValue, List.find?]

/-- Witness for C4: the downstream handler observes `userID = "user123"`. -/
theorem JWTAuth_inject_witness :
    JWTAuth validateUser123 reqAuthOK =
      .passthrough (authContext reqAuthOK claimsUser123) [] ∧
    ctxValue (authContext reqAuthOK claimsUser123) .userID =
      some (.str "user123") :=
  ⟨(JWTAuth_inject validateUser123 reqAuthOK "tok123" claimsUser123
      rfl rfl (by decide) rfl).1,
   (JWTAuth_inject validateUser123 reqAuthOK "tok123" claimsUser123
      rfl rfl (by decide) rfl).2.1⟩

/-- C10: a token from `GenerateAccessToken`, validated under the same
configuration at any time from issuance until the access-token TTL elapses,
is accepted and yields claims whose `UserID`, `Email` and `Role` are the
inputs, whose `Subject` is the user ID, and whose `Issuer` and `Audience`
are the configured values. -/
theorem validateToken_roundTrip (cfg : JWTConfig) (u em rl : String)
    (now t : Int) (h1 : now ≤ t) (h2 : t ≤ now + cfg.accessTokenTTL) :
    ValidateToken cfg t (GenerateAccessToken cfg u em rl now) =
      Except.ok
        { userID := u, email := em, role := rl
          registered :=
            { issuer := cfg.issuer, subject := u, audience := [cfg.audience]
              expiresAt := now + cfg.accessTokenTTL, notBefore := now
              issuedAt := now } } := by
  rw [ValidateToken, GenerateAccessToken, generateToken]
  rw [if_neg (by simp), if_neg (by simp)]
  rw [if_neg (by simp only []; omega), if_neg (by simp only []; omega)]

/-- Witness for C10 with the default configuration, ten seconds after
issuance. -/
theorem validateToken_roundTrip_witness :
    (0 : Int) ≤ 10 ∧ (10 : Int) ≤ 0 + cfgDefault.accessTokenTTL ∧
    ValidateToken cfgDefault 10
        (GenerateAccessToken cfgDefault "user123" "u@example.com" "admin" 0) =
      Except.ok
        { userID := "user123", email := "u@example.com", role := "admin"
          registered :=
            { issuer := cfgDefault.issuer, subject := "user123"
              audience := [cfgDefault.audience]
              expiresAt := 0 + cfgDefault.accessTokenTTL, notBefore := 0
              issuedAt := 0 } } :=
  ⟨by decide, by decide,
   validateToken_roundTrip cfgDefault "user123" "u@example.com" "admin" 0 10
     (by decide) (by decide)⟩

end Boilerplate
